import Mathlib

/-!
Verification of the TSL2591 lux-sensor driver (golang-tsl2591).

The driver's pure logic is shallowly embedded:
* machine bytes and 16/32-bit words are modelled as `Nat`, with `% 2^w`
  written where the Go arithmetic can wrap (uint16 multiplication in `Lux`);
* Go's `(value, error)` multi-returns are modelled as explicit pairs
  `value × Option Err`, keeping the zero values the Go code returns
  alongside an error;
* bus transactions are modelled by injecting each read's outcome as an
  `Except Err Nat` argument, and a write's outcome as an `Option Err`;
* `float64` lux arithmetic is modelled by exact rationals `Rat`, with the
  decimal literal coefficients taken at their decimal values.
-/

namespace TSL2591

/-! ### Constants (constants.go) -/

/-- CommandBit is 1010 0000 - sets bits 7 and 5 to indicate command normal. -/
def CommandBit : Nat := 0xa0

/-- RegisterEnable is the enable register. -/
def RegisterEnable : Nat := 0x00

/-- RegisterControl is the control register. -/
def RegisterControl : Nat := 0x01

/-- RegisterDeviceID is for device identification. -/
def RegisterDeviceID : Nat := 0x12

/-- RegisterChan0Low is channel 0 data, low byte. -/
def RegisterChan0Low : Nat := 0x14

/-- RegisterChan1Low is channel 1 data, low byte. -/
def RegisterChan1Low : Nat := 0x16

/-- EnablePowerOff to set the enable register to disabled. -/
def EnablePowerOff : Nat := 0x00

/-- EnablePowerOn to set the enable register to enabled. -/
def EnablePowerOn : Nat := 0x01

/-- EnableAEN commands the ALS function. -/
def EnableAEN : Nat := 0x02

/-- EnableAIEN permits ALS interrupts to be generated. -/
def EnableAIEN : Nat := 0x10

/-- EnableNPIEN commands that NP threshold conditions generate an interrupt. -/
def EnableNPIEN : Nat := 0x80

/-- Device ID of the TSL2591 chip. -/
def DeviceID : Nat := 0x50

/-- GainLow is low gain (1x). -/
def GainLow : Nat := 0x00

/-- GainMed is medium gain (25x). -/
def GainMed : Nat := 0x10

/-- GainHigh is high gain (428x). -/
def GainHigh : Nat := 0x20

/-- GainMax is max gain (9876x). -/
def GainMax : Nat := 0x30

/-- Integrationtime100MS is 100 millis. -/
def Integrationtime100MS : Nat := 0x00

/-- MaxCount100ms sensor count. -/
def MaxCount100ms : Nat := 0x8fff

/-- MaxCount sensor count. -/
def MaxCount : Nat := 0xffff

/-- LuxDF is the lux coefficient (408.0). -/
def LuxDF : Rat := 408

/-- LuxCoefB is the channel0 coefficient (1.64). -/
def LuxCoefB : Rat := 164 / 100

/-- LuxCoefC is channel1 coefficient A (0.59). -/
def LuxCoefC : Rat := 59 / 100

/-- LuxCoefD is channel2 coefficient B (0.86). -/
def LuxCoefD : Rat := 86 / 100

/-! ### Errors (errors.go) -/

/-- UnexpectedDeviceIDError payload (errors.go): the expected and the actual
device-ID byte. -/
structure UnexpectedDeviceIDError where
  Expected : Nat
  Actual : Nat
deriving DecidableEq, Repr

/-- The error kinds the driver can surface: transport failures (bus I/O,
carrying a context message), the overflow error of `Lux` (ErrOverflow in
errors.go), the generic construction error of the historical variants, and
the device-identity mismatch of errors.go. -/
inductive Err where
  | transport (msg : String)
  | overflow
  | generic (msg : String)
  | unexpectedDeviceID (payload : UnexpectedDeviceIDError)
deriving DecidableEq, Repr

/-! ### Raw and derived readings (src/unnamed/part_002) -/

/-- RawLuminosity (part_002, lines 175-190): two independent 16-bit reads of
channel 0 then channel 1; the first failure aborts with zero values. The
outcome of each `readU16` bus transaction is injected as an argument; the Go
code wraps a failure's message with context, which the model keeps abstract
by propagating the error value itself. -/
def RawLuminosity (r0 r1 : Except Err Nat) : Nat × Nat × Option Err :=
  match r0 with
  | .error e => (0, 0, some e)
  | .ok c0 =>
    match r1 with
    | .error e => (0, 0, some e)
    | .ok c1 => (c0, c1, none)

/-- FullSpectrum (part_002, lines 193-204): `uint32(c1)<<16 | uint32(c0)`.
The channel values produced by `readU16` are uint16, so the uint32 shift and
or cannot truncate. -/
def FullSpectrum (r0 r1 : Except Err Nat) : Nat × Option Err :=
  match RawLuminosity r0 r1 with
  | (_, _, some e) => (0, some e)
  | (c0, c1, none) => (c1 <<< 16 ||| c0, none)

/-- Infrared (part_002, lines 207-213): returns channel 1. -/
def Infrared (r0 r1 : Except Err Nat) : Nat × Option Err :=
  match RawLuminosity r0 r1 with
  | (_, _, some e) => (0, some e)
  | (_, c1, none) => (c1, none)

/-- Visible (part_002, lines 216-223): `full := uint32(c1)<<16 | uint32(c0)`
then `full - uint32(c1)`. Since `full ≥ c1` the uint32 subtraction cannot
wrap, so Nat subtraction is exact. -/
def Visible (r0 r1 : Except Err Nat) : Nat × Option Err :=
  match RawLuminosity r0 r1 with
  | (_, _, some e) => (0, some e)
  | (c0, c1, none) =>
    let full := c1 <<< 16 ||| c0
    (full - c1, none)

/-- The gain-to-multiplier switch of `Lux` (part_002, lines 250-258):
`again := uint16(1)` then a switch over GainMed, GainHigh, GainMax; every
other byte, including GainLow, keeps the initial 1. -/
def luxAgain (gain : Nat) : Nat :=
  if gain = GainMed then 25
  else if gain = GainHigh then 428
  else if gain = GainMax then 9876
  else 1

/-- The larger of two rationals, modelling Go's `math.Max`; written with an
explicit comparison so that it evaluates by kernel reduction. -/
def ratMax (a b : Rat) : Rat :=
  if a ≤ b then b else a

/-- Lux (part_002, lines 226-265). `atime := 100*uint16(tsl.timing) + 100`
(uint16, no wrap since timing is a byte, but the `% 65536` of the machine
type is kept); `maxCounts` is `MaxCount100ms` at the 100 ms timing code and
`MaxCount` otherwise; `c0 >= maxCounts || c1 >= maxCounts` fails with the
overflow error; `cpl := float64(atime*again)/LuxDF` multiplies atime and
again as uint16, wrapping mod 2^16; lux1 and lux2 are the two Adafruit
formulas and the result is their maximum. Float64 arithmetic is modelled by
exact rationals. -/
def Lux (timing gain : Nat) (r0 r1 : Except Err Nat) : Rat × Option Err :=
  match RawLuminosity r0 r1 with
  | (_, _, some e) => (0, some e)
  | (c0, c1, none) =>
    let atime := (100 * timing + 100) % 65536
    let maxCounts := if timing = Integrationtime100MS then MaxCount100ms else MaxCount
    if maxCounts ≤ c0 ∨ maxCounts ≤ c1 then
      (0, some Err.overflow)
    else
      let again := luxAgain gain
      let cpl : Rat := (((atime * again) % 65536 : Nat) : Rat) / LuxDF
      let lux1 : Rat := ((c0 : Rat) - LuxCoefB * (c1 : Rat)) / cpl
      let lux2 : Rat := (LuxCoefC * (c0 : Rat) - LuxCoefD * (c1 : Rat)) / cpl
      (ratMax lux1 lux2, none)

/-! ### Register transport framing (lowlevel.go) -/

/-- writeU8 (lowlevel.go, lines 19-28): the two-byte frame written to the bus
for a register write: the command byte `CommandBit | address`, then the
value. -/
def writeU8frame (address value : Nat) : List Nat :=
  [CommandBit ||| address, value]

/-! ### Spec-modelled sensor controller

The repository's current `tsl2591.go` — the sole caller of `readU8`/`writeU8`
of lowlevel.go and of `UnexpectedDeviceIDError` of errors.go — is not among
the files under verification; only its helpers, constants and historical
variants are. Its operations are therefore modelled from the spec. -/

/-- Modelled from the spec: the missing `SetGain` body merges the new gain
into the control byte read back from the device — clear bits 4-5 (the gain
field) with mask 0b11001111, then OR in the new gain value's bit pattern. -/
def mergeGain (control gain : Nat) : Nat :=
  (control &&& 0b11001111) ||| gain

/-- Modelled from the spec: the missing `SetTiming` body merges the new
integration-time code into the control byte — clear bits 0-2 with mask
0b11111000, then OR in the new code. -/
def mergeTiming (control timing : Nat) : Nat :=
  (control &&& 0b11111000) ||| timing

/-- The in-memory configuration fields of the sensor handle. -/
structure HandleState where
  gain : Nat
  timing : Nat
deriving DecidableEq, Repr

/-- Modelled from the spec: the missing `SetGain` of the current
`tsl2591.go` — read the control register (address 0x01), merge the gain with
`mergeGain`, write the merged byte back to the control register, and update
the in-memory gain field on success. The device is represented by its
control-register byte `dev`; the outcomes of the read and write bus
transactions are injected as `readErr` and `writeErr`, and a transport
failure aborts before any state change. Returns the new handle state, the
new control-register byte and the error, if any. -/
def SetGain (h : HandleState) (dev gain : Nat)
    (readErr writeErr : Option Err) : HandleState × Nat × Option Err :=
  match readErr with
  | some e => (h, dev, some e)
  | none =>
    let merged := mergeGain dev gain
    match writeErr with
    | some e => (h, dev, some e)
    | none => ({ h with gain := gain }, merged, none)

/-- Modelled from the spec: the missing `SetTiming` of the current
`tsl2591.go`, symmetric to `SetGain` with `mergeTiming`. -/
def SetTiming (h : HandleState) (dev timing : Nat)
    (readErr writeErr : Option Err) : HandleState × Nat × Option Err :=
  match readErr with
  | some e => (h, dev, some e)
  | none =>
    let merged := mergeTiming dev timing
    match writeErr with
    | some e => (h, dev, some e)
    | none => ({ h with timing := timing }, merged, none)

/-- Modelled from the spec: the missing `Enable` writes the enable register
(address 0x00) with the bitwise OR of the power-on, ALS-enable,
ALS-interrupt-enable and no-persist-interrupt-enable flags, through the
two-byte `writeU8` framing of lowlevel.go. -/
def enableFrame : List Nat :=
  writeU8frame RegisterEnable (EnablePowerOn ||| EnableAEN ||| EnableAIEN ||| EnableNPIEN)

/-- Modelled from the spec: the missing `Disable` writes the enable register
with only the power-off flag, through the two-byte `writeU8` framing of
lowlevel.go. -/
def disableFrame : List Nat :=
  writeU8frame RegisterEnable EnablePowerOff

/-- Modelled from the spec: the device-identity check of the missing
`NewTSL2591` of the current `tsl2591.go` — compare the byte read from the
device-ID register (address 0x12) against `DeviceID = 0x50` and fail with
the `UnexpectedDeviceIDError` of errors.go, carrying the expected and the
actual byte, when they differ. -/
def checkDeviceID (b : Nat) : Except Err Unit :=
  if b = DeviceID then .ok ()
  else .error (.unexpectedDeviceID ⟨DeviceID, b⟩)

/-- The configuration invariant: the in-memory gain field equals the gain
bits (4-5) of the control register and the in-memory timing field equals
the timing bits (0-2). -/
def configInv (h : HandleState) (dev : Nat) : Prop :=
  dev &&& 0b00110000 = h.gain ∧ dev &&& 0b00000111 = h.timing

instance (h : HandleState) (dev : Nat) : Decidable (configInv h dev) := by
  unfold configInv; infer_instance

/-! ### Helper lemmas -/

/-- `ratMax` is the lattice maximum on the rationals. -/
lemma ratMax_eq_max (a b : Rat) : ratMax a b = max a b := by
  rw [ratMax, max_def]

/-- Bitwise and distributes on the right over bitwise or, on `Nat`. -/
lemma lor_and_right (a b c : Nat) : (a ||| b) &&& c = (a &&& c) ||| (b &&& c) := by
  apply Nat.eq_of_testBit_eq
  intro i
  simp [Nat.testBit_and, Nat.testBit_or, Bool.and_or_distrib_right]

/-- A valid gain code occupies exactly bits 4-5. -/
lemma validGain_bits {g : Nat}
    (hg : g = GainLow ∨ g = GainMed ∨ g = GainHigh ∨ g = GainMax) :
    g &&& 0b00110000 = g ∧ g &&& 0b00000111 = 0 := by
  rcases hg with h | h | h | h <;> subst h <;> exact ⟨by rfl, by rfl⟩

/-- A valid timing code occupies only bits 0-2. -/
lemma validTiming_bits {t : Nat} (ht : t ≤ 5) :
    t &&& 0b00000111 = t ∧ t &&& 0b00110000 = 0 := by
  interval_cases t <;> exact ⟨by rfl, by rfl⟩

/-- `mergeGain` sets the gain field (bits 4-5) to a valid gain code. -/
lemma mergeGain_gain_bits {g : Nat}
    (hg : g = GainLow ∨ g = GainMed ∨ g = GainHigh ∨ g = GainMax) (dev : Nat) :
    mergeGain dev g &&& 0b00110000 = g := by
  have h1 : (0b11001111 &&& 0b00110000 : Nat) = 0 := by decide
  rw [mergeGain, lor_and_right, Nat.and_assoc, h1, Nat.and_zero, Nat.zero_or,
    (validGain_bits hg).1]

/-- `mergeGain` leaves the timing field (bits 0-2) unchanged. -/
lemma mergeGain_timing_bits {g : Nat}
    (hg : g = GainLow ∨ g = GainMed ∨ g = GainHigh ∨ g = GainMax) (dev : Nat) :
    mergeGain dev g &&& 0b00000111 = dev &&& 0b00000111 := by
  have h1 : (0b11001111 &&& 0b00000111 : Nat) = 0b00000111 := by decide
  rw [mergeGain, lor_and_right, Nat.and_assoc, h1, (validGain_bits hg).2, Nat.or_zero]

/-- `mergeTiming` sets the timing field (bits 0-2) to a valid timing code. -/
lemma mergeTiming_timing_bits {t : Nat} (ht : t ≤ 5) (dev : Nat) :
    mergeTiming dev t &&& 0b00000111 = t := by
  have h1 : (0b11111000 &&& 0b00000111 : Nat) = 0 := by decide
  rw [mergeTiming, lor_and_right, Nat.and_assoc, h1, Nat.and_zero, Nat.zero_or,
    (validTiming_bits ht).1]

/-- `mergeTiming` leaves the gain field (bits 4-5) unchanged. -/
lemma mergeTiming_gain_bits {t : Nat} (ht : t ≤ 5) (dev : Nat) :
    mergeTiming dev t &&& 0b00110000 = dev &&& 0b00110000 := by
  have h1 : (0b11111000 &&& 0b00110000 : Nat) = 0b00110000 := by decide
  rw [mergeTiming, lor_and_right, Nat.and_assoc, h1, (validTiming_bits ht).2, Nat.or_zero]

/-! ### Theorems for the claims -/

/-- C1: for every raw reading, `Lux` fails with the overflow error exactly
when, at the 100 ms integration-time code, either channel is at least
0x8FFF, and at any other integration-time code, either channel is at least
0xFFFF; on overflow the result is the zero value together with the error —
no numeric lux value, no clamped substitute. -/
theorem C1_lux_overflow (t g c0 c1 : Nat) :
    ((Lux t g (.ok c0) (.ok c1)).2 = some Err.overflow ↔
      (if t = Integrationtime100MS then 0x8fff ≤ c0 ∨ 0x8fff ≤ c1
        else 0xffff ≤ c0 ∨ 0xffff ≤ c1)) ∧
    ((Lux t g (.ok c0) (.ok c1)).2 = some Err.overflow →
      Lux t g (.ok c0) (.ok c1) = (0, some Err.overflow)) := by
  by_cases ht : t = Integrationtime100MS
  · by_cases hc : (0x8fff : Nat) ≤ c0 ∨ (0x8fff : Nat) ≤ c1
    · simp [Lux, RawLuminosity, ht, hc, MaxCount100ms]
    · simp [Lux, RawLuminosity, ht, hc, MaxCount100ms]
  · by_cases hc : (0xffff : Nat) ≤ c0 ∨ (0xffff : Nat) ≤ c1
    · simp [Lux, RawLuminosity, ht, hc, MaxCount]
    · simp [Lux, RawLuminosity, ht, hc, MaxCount]

/-- C2: for every valid gain code, a successful `SetGain` writes back the
control byte with only bits 4-5 replaced — the merged byte is
`(control & 0b11001111) | gain` — so a readback shows the gain bits equal
to the new gain and the timing bits (0-2) unchanged, and the in-memory
gain field is updated. -/
theorem C2_set_gain_mask (h : HandleState) (dev g : Nat)
    (hg : g = GainLow ∨ g = GainMed ∨ g = GainHigh ∨ g = GainMax) :
    (SetGain h dev g none none).2.2 = none ∧
    (SetGain h dev g none none).2.1 = (dev &&& 0b11001111) ||| g ∧
    (SetGain h dev g none none).2.1 &&& 0b00110000 = g ∧
    (SetGain h dev g none none).2.1 &&& 0b00000111 = dev &&& 0b00000111 ∧
    (SetGain h dev g none none).1 = { h with gain := g } :=
  ⟨rfl, rfl, mergeGain_gain_bits hg dev, mergeGain_timing_bits hg dev, rfl⟩

/-- Witness for C2 at the gain code GainHigh on control byte 0xAB. -/
theorem C2_set_gain_mask_witness :
    (SetGain ⟨0x00, 0x05⟩ 0xab 0x20 none none).2.2 = none ∧
    (SetGain ⟨0x00, 0x05⟩ 0xab 0x20 none none).2.1 = (0xab &&& 0b11001111) ||| 0x20 ∧
    (SetGain ⟨0x00, 0x05⟩ 0xab 0x20 none none).2.1 &&& 0b00110000 = 0x20 ∧
    (SetGain ⟨0x00, 0x05⟩ 0xab 0x20 none none).2.1 &&& 0b00000111 = 0xab &&& 0b00000111 ∧
    (SetGain ⟨0x00, 0x05⟩ 0xab 0x20 none none).1 = ⟨0x20, 0x05⟩ :=
  C2_set_gain_mask ⟨0x00, 0x05⟩ 0xab 0x20 (Or.inr (Or.inr (Or.inl rfl)))

/-- C4: after a configuration call that fails to read or write, both the
in-memory fields and the control register are unchanged; after a successful
`SetGain` or `SetTiming` with a valid code, the in-memory gain and timing
fields again equal the gain and timing fields of the control register,
provided they did before the call (the invariant is inductive). -/
theorem C4_config_invariant :
    (∀ h dev g re we, (SetGain h dev g re we).2.2 ≠ none →
      (SetGain h dev g re we).1 = h ∧ (SetGain h dev g re we).2.1 = dev) ∧
    (∀ h dev t re we, (SetTiming h dev t re we).2.2 ≠ none →
      (SetTiming h dev t re we).1 = h ∧ (SetTiming h dev t re we).2.1 = dev) ∧
    (∀ h dev g re we, (g = GainLow ∨ g = GainMed ∨ g = GainHigh ∨ g = GainMax) →
      configInv h dev → (SetGain h dev g re we).2.2 = none →
      configInv (SetGain h dev g re we).1 (SetGain h dev g re we).2.1) ∧
    (∀ h dev t re we, t ≤ 5 →
      configInv h dev → (SetTiming h dev t re we).2.2 = none →
      configInv (SetTiming h dev t re we).1 (SetTiming h dev t re we).2.1) := by
  refine ⟨?_, ?_, ?_, ?_⟩
  · intro h dev g re we hne
    cases re with
    | some e => exact ⟨rfl, rfl⟩
    | none =>
      cases we with
      | some e => exact ⟨rfl, rfl⟩
      | none => exact absurd rfl hne
  · intro h dev t re we hne
    cases re with
    | some e => exact ⟨rfl, rfl⟩
    | none =>
      cases we with
      | some e => exact ⟨rfl, rfl⟩
      | none => exact absurd rfl hne
  · intro h dev g re we hg hinv hok
    cases re with
    | some e => simp [SetGain] at hok
    | none =>
      cases we with
      | some e => simp [SetGain] at hok
      | none => exact ⟨mergeGain_gain_bits hg dev, (mergeGain_timing_bits hg dev).trans hinv.2⟩
  · intro h dev t re we ht hinv hok
    cases re with
    | some e => simp [SetTiming] at hok
    | none =>
      cases we with
      | some e => simp [SetTiming] at hok
      | none => exact ⟨(mergeTiming_gain_bits ht dev).trans hinv.1, mergeTiming_timing_bits ht dev⟩

/-- Witness for C4: a failed write leaves handle and register unchanged,
and a successful `SetGain` on an in-sync state restores the invariant. -/
theorem C4_config_invariant_witness :
    ((SetGain ⟨0x00, 0x02⟩ 0x12 0x10 none (some Err.overflow)).1 = ⟨0x00, 0x02⟩ ∧
      (SetGain ⟨0x00, 0x02⟩ 0x12 0x10 none (some Err.overflow)).2.1 = 0x12) ∧
    configInv (SetGain ⟨0x30, 0x05⟩ 0x35 0x10 none none).1
      (SetGain ⟨0x30, 0x05⟩ 0x35 0x10 none none).2.1 :=
  ⟨C4_config_invariant.1 ⟨0x00, 0x02⟩ 0x12 0x10 none (some Err.overflow) (by decide),
    C4_config_invariant.2.2.1 ⟨0x30, 0x05⟩ 0x35 0x10 none none
      (Or.inr (Or.inl rfl)) (by decide) rfl⟩

/-- C3 counterexample: at c0 = 51, c1 = 14, gain low, timing 100 ms the
code returns exactly 71502/625 = 114.4032, which is more than 1 away from
the claimed approximate value 115.87; and at timing code 0x01 (200 ms)
with GainHigh the code's 16-bit product wraps, so the result 425/209
differs from the claimed formula value computed with the mathematical
product atime * again = 85600. -/
theorem C3_lux_example_counterexample :
    (Lux Integrationtime100MS GainLow (.ok 51) (.ok 14)).1 = 71502 / 625 ∧
    (11587 : ℚ) / 100 - 71502 / 625 > 1 ∧
    (Lux 0x01 GainHigh (.ok 100) (.ok 0)).1 = 425 / 209 ∧
    (425 / 209 : ℚ) ≠
      max (((100 : ℚ) - 164 / 100 * 0) / (((100 * 1 + 100) * 428 : ℚ) / 408))
        ((59 / 100 * 100 - 86 / 100 * 0) / (((100 * 1 + 100) * 428 : ℚ) / 408)) := by
  refine ⟨?_, by norm_num, ?_, ?_⟩
  · norm_num [Lux, RawLuminosity, luxAgain, ratMax, Integrationtime100MS,
      MaxCount100ms, MaxCount, GainLow, GainMed, GainHigh, GainMax,
      LuxCoefB, LuxCoefC, LuxCoefD, LuxDF]
  · norm_num [Lux, RawLuminosity, luxAgain, ratMax, Integrationtime100MS,
      MaxCount100ms, MaxCount, GainLow, GainMed, GainHigh, GainMax,
      LuxCoefB, LuxCoefC, LuxCoefD, LuxDF]
  · rw [max_def]
    norm_num

/-- C3 amended: for every integration-time code 0..5, every recognized gain
code with its multiplier 1, 25, 428 or 9876, and every raw reading passing
the overflow check, `Lux` returns max(lux1, lux2) with
`cpl = ((atime * again) mod 2^16) / 408` — the code multiplies atime and
again in 16-bit arithmetic — `lux1 = (c0 - 1.64*c1)/cpl` and
`lux2 = (0.59*c0 - 0.86*c1)/cpl`, the arithmetic taken over exact
rationals; at c0 = 51, c1 = 14, gain low, timing 100 ms the result is
71502/625 ≈ 114.40 (not 115.87). -/
theorem C3_lux_formula :
    (∀ t a g c0 c1 : Nat, t ≤ 5 →
      ((g = GainLow ∧ a = 1) ∨ (g = GainMed ∧ a = 25) ∨
        (g = GainHigh ∧ a = 428) ∨ (g = GainMax ∧ a = 9876)) →
      c0 < (if t = Integrationtime100MS then MaxCount100ms else MaxCount) →
      c1 < (if t = Integrationtime100MS then MaxCount100ms else MaxCount) →
      Lux t g (.ok c0) (.ok c1) =
        (max (((c0 : ℚ) - 164 / 100 * (c1 : ℚ)) /
            ((((100 * t + 100) * a % 65536 : Nat) : ℚ) / 408))
          ((59 / 100 * (c0 : ℚ) - 86 / 100 * (c1 : ℚ)) /
            ((((100 * t + 100) * a % 65536 : Nat) : ℚ) / 408)), none)) ∧
    (Lux Integrationtime100MS GainLow (.ok 51) (.ok 14)).1 = 71502 / 625 := by
  constructor
  · intro t a g c0 c1 ht hg h0 h1
    have hne : ¬ ((if t = Integrationtime100MS then MaxCount100ms else MaxCount) ≤ c0 ∨
        (if t = Integrationtime100MS then MaxCount100ms else MaxCount) ≤ c1) := by
      push_neg
      exact ⟨h0, h1⟩
    have hatime : (100 * t + 100) % 65536 = 100 * t + 100 :=
      Nat.mod_eq_of_lt (by omega)
    have hagain : luxAgain g = a := by
      rcases hg with ⟨hg, ha⟩ | ⟨hg, ha⟩ | ⟨hg, ha⟩ | ⟨hg, ha⟩ <;> subst hg <;> subst ha <;> rfl
    simp only [Lux, RawLuminosity, hagain, hatime, if_neg hne, ratMax_eq_max,
      LuxCoefB, LuxCoefC, LuxCoefD, LuxDF]
  · norm_num [Lux, RawLuminosity, luxAgain, ratMax, Integrationtime100MS,
      MaxCount100ms, MaxCount, GainLow, GainMed, GainHigh, GainMax,
      LuxCoefB, LuxCoefC, LuxCoefD, LuxDF]

/-- Witness for the amended C3 at c0 = 51, c1 = 14, gain low, 100 ms. -/
theorem C3_lux_formula_witness :
    Lux Integrationtime100MS GainLow (.ok 51) (.ok 14) =
      (max ((((51 : ℕ) : ℚ) - 164 / 100 * ((14 : ℕ) : ℚ)) /
          ((((100 * Integrationtime100MS + 100) * 1 % 65536 : Nat) : ℚ) / 408))
        ((59 / 100 * ((51 : ℕ) : ℚ) - 86 / 100 * ((14 : ℕ) : ℚ)) /
          ((((100 * Integrationtime100MS + 100) * 1 % 65536 : Nat) : ℚ) / 408)), none) :=
  C3_lux_formula.1 Integrationtime100MS 1 GainLow 51 14 (by decide)
    (Or.inl ⟨rfl, rfl⟩) (by decide) (by decide)

/-- C5: every register write of a value is framed as exactly two bytes —
the command byte `address | 0xA0` first, then the value — and `Enable`
writes the enable register (address 0x00) with the single value byte that
is the bitwise OR of the power-on (0x01), ALS-enable (0x02),
ALS-interrupt-enable (0x10) and no-persist-interrupt-enable (0x80) flags,
while `Disable` writes it with only the power-off flag 0x00. -/
theorem C5_write_framing (address value : Nat) :
    writeU8frame address value = [address ||| 0xa0, value] ∧
    (writeU8frame address value).length = 2 ∧
    enableFrame = writeU8frame RegisterEnable
      (EnablePowerOn ||| EnableAEN ||| EnableAIEN ||| EnableNPIEN) ∧
    enableFrame = [0xa0, 0x93] ∧
    (0x93 : Nat) = 0x01 ||| 0x02 ||| 0x10 ||| 0x80 ∧
    disableFrame = writeU8frame RegisterEnable EnablePowerOff ∧
    disableFrame = [0xa0, 0x00] := by
  refine ⟨?_, rfl, rfl, rfl, rfl, rfl, rfl⟩
  rw [writeU8frame, Nat.lor_comm, CommandBit]

/-- C6: for every byte other than 0x50 read from the device-ID register
during construction, the identity check fails with the distinct
`UnexpectedDeviceIDError` kind — not a transport error, not a generic
error, not the overflow error — carrying both the expected byte 0x50 and
the actual byte. -/
theorem C6_device_id_check (b : Nat) (hb : b ≠ 0x50) :
    checkDeviceID b = .error (.unexpectedDeviceID ⟨0x50, b⟩) ∧
    (∀ msg, Err.unexpectedDeviceID ⟨0x50, b⟩ ≠ Err.transport msg) ∧
    (∀ msg, Err.unexpectedDeviceID ⟨0x50, b⟩ ≠ Err.generic msg) ∧
    Err.unexpectedDeviceID ⟨0x50, b⟩ ≠ Err.overflow := by
  refine ⟨?_, fun msg => by simp, fun msg => by simp, by simp⟩
  simp [checkDeviceID, DeviceID, hb]

/-- Witness for C6 at the concrete byte 0x42. -/
theorem C6_device_id_check_witness :
    checkDeviceID 0x42 = .error (.unexpectedDeviceID ⟨0x50, 0x42⟩) :=
  (C6_device_id_check 0x42 (by decide)).1

/-- C9: for every raw 16-bit reading, `FullSpectrum` returns the 32-bit
bit-packed value `(channel1 <<< 16) ||| channel0`, which fits in 32 bits;
at channel0 = 0x0033, channel1 = 0x000E it equals 0x000E0033 = 917555,
which is not the arithmetic sum of the channels. -/
theorem C9_full_spectrum :
    (∀ c0 c1 : Nat, c0 < 65536 → c1 < 65536 →
      FullSpectrum (.ok c0) (.ok c1) = (c1 <<< 16 ||| c0, none) ∧
      c1 <<< 16 ||| c0 < 2 ^ 32) ∧
    FullSpectrum (.ok 0x33) (.ok 0xe) = (917555, none) ∧
    (917555 : Nat) = 0xe0033 ∧
    (917555 : Nat) ≠ 0x33 + 0xe := by
  refine ⟨fun c0 c1 h0 h1 => ⟨rfl, ?_⟩, by decide, by decide, by decide⟩
  have hs : c1 <<< 16 < 2 ^ 32 := by
    rw [Nat.shiftLeft_eq]
    have he : (2 : ℕ) ^ 16 = 65536 := by norm_num
    have he' : (2 : ℕ) ^ 32 = 4294967296 := by norm_num
    rw [he, he']
    omega
  exact Nat.or_lt_two_pow hs (lt_trans h0 (by norm_num))

/-- Witness for C9 at channel0 = 0x33, channel1 = 0xE. -/
theorem C9_full_spectrum_witness :
    FullSpectrum (.ok 0x33) (.ok 0xe) = ((0xe : Nat) <<< 16 ||| 0x33, none) ∧
    (0xe : Nat) <<< 16 ||| 0x33 < 2 ^ 32 :=
  C9_full_spectrum.1 0x33 0xe (by decide) (by decide)

/-- C8 counterexample: at channel0 = 0x33, channel1 = 0xE the code's
`Visible` returns 917541, which is not channel0 = 0x33 widened to 32 bits,
refuting the claim that `FullSpectrum() - channel1` recovers channel0. -/
theorem C8_visible_counterexample :
    Visible (.ok 0x33) (.ok 0xe) = (917541, none) ∧ (917541 : Nat) ≠ 0x33 := by
  exact ⟨by decide, by decide⟩

/-- C8 amended: for every raw 16-bit reading, `Visible` returns
`FullSpectrum() - channel1` as a 32-bit value (this does not recover
channel0 widened to 32 bits unless channel1 = 0); at channel0 = 0x0033,
channel1 = 0x000E the result equals 917541. -/
theorem C8_visible :
    (∀ c0 c1 : Nat, c0 < 65536 → c1 < 65536 →
      Visible (.ok c0) (.ok c1) = ((c1 <<< 16 ||| c0) - c1, none) ∧
      (c1 = 0 → Visible (.ok c0) (.ok c1) = (c0, none))) ∧
    Visible (.ok 0x33) (.ok 0xe) = (917541, none) := by
  refine ⟨fun c0 c1 h0 h1 => ⟨rfl, fun h => ?_⟩, by decide⟩
  subst h
  simp [Visible, RawLuminosity]

/-- Witness for the amended C8 at channel0 = 0x33, channel1 = 0xE. -/
theorem C8_visible_witness :
    Visible (.ok 0x33) (.ok 0xe) = (((0xe : Nat) <<< 16 ||| 0x33) - 0xe, none) :=
  (C8_visible.1 0x33 0xe (by decide) (by decide)).1

/-- C7 counterexample: the gain byte 0x15 lies outside the closed
enumeration {0x00, 0x10, 0x20, 0x30}, yet the lux computation silently
defaults its multiplier to 1 and returns a numeric lux value with no error,
identical to the GainLow result — refuting the claim that unrecognized
codes are not silently defaulted. -/
theorem C7_gain_default_counterexample :
    luxAgain 0x15 = 1 ∧
    Lux Integrationtime100MS 0x15 (.ok 51) (.ok 14) =
      Lux Integrationtime100MS GainLow (.ok 51) (.ok 14) ∧
    (Lux Integrationtime100MS 0x15 (.ok 51) (.ok 14)).2 = none ∧
    (Lux Integrationtime100MS 0x15 (.ok 51) (.ok 14)).1 = 71502 / 625 := by
  refine ⟨by decide, rfl, rfl, ?_⟩
  norm_num [Lux, RawLuminosity, luxAgain, ratMax, Integrationtime100MS,
    MaxCount100ms, MaxCount, GainLow, GainMed, GainHigh, GainMax,
    LuxCoefB, LuxCoefC, LuxCoefD, LuxDF]

/-- C7 amended: for every stored gain byte outside the closed enumeration
{0x00, 0x10, 0x20, 0x30}, the lux computation silently defaults the
analog-gain multiplier to 1 and behaves exactly as with GainLow; no
configuration-invariant violation is raised. -/
theorem C7_gain_default (g : Nat)
    (h1 : g ≠ GainMed) (h2 : g ≠ GainHigh) (h3 : g ≠ GainMax) :
    luxAgain g = 1 ∧
    ∀ t r0 r1, Lux t g r0 r1 = Lux t GainLow r0 r1 := by
  have ha : luxAgain g = 1 := by
    simp [luxAgain, h1, h2, h3]
  refine ⟨ha, fun t r0 r1 => ?_⟩
  simp only [Lux, ha]
  rfl

/-- Witness for the amended C7 at the unrecognized gain byte 0x15. -/
theorem C7_gain_default_witness :
    luxAgain 0x15 = 1 ∧
    ∀ t r0 r1, Lux t 0x15 r0 r1 = Lux t GainLow r0 r1 :=
  C7_gain_default 0x15 (by decide) (by decide) (by decide)

/-- C10: whenever `RawLuminosity`, `FullSpectrum`, `Infrared`, `Visible` or
`Lux` returns an error, every value component of its result is zero. -/
theorem C10_zero_on_error :
    (∀ r0 r1, (RawLuminosity r0 r1).2.2 ≠ none →
      (RawLuminosity r0 r1).1 = 0 ∧ (RawLuminosity r0 r1).2.1 = 0) ∧
    (∀ r0 r1, (FullSpectrum r0 r1).2 ≠ none → (FullSpectrum r0 r1).1 = 0) ∧
    (∀ r0 r1, (Infrared r0 r1).2 ≠ none → (Infrared r0 r1).1 = 0) ∧
    (∀ r0 r1, (Visible r0 r1).2 ≠ none → (Visible r0 r1).1 = 0) ∧
    (∀ t g r0 r1, (Lux t g r0 r1).2 ≠ none → (Lux t g r0 r1).1 = 0) := by
  refine ⟨?_, ?_, ?_, ?_, ?_⟩
  · intro r0 r1 h
    cases r0 <;> cases r1 <;> simp_all [RawLuminosity]
  · intro r0 r1 h
    cases r0 <;> cases r1 <;> simp_all [FullSpectrum, RawLuminosity]
  · intro r0 r1 h
    cases r0 <;> cases r1 <;> simp_all [Infrared, RawLuminosity]
  · intro r0 r1 h
    cases r0 <;> cases r1 <;> simp_all [Visible, RawLuminosity]
  · intro t g r0 r1 h
    cases r0 with
    | error e => simp [Lux, RawLuminosity]
    | ok c0 =>
      cases r1 with
      | error e => simp [Lux, RawLuminosity]
      | ok c1 =>
        simp only [Lux, RawLuminosity] at h ⊢
        split_ifs at h ⊢ <;> simp_all

/-- Witness for C10: a failed first read and an overflowing reading each
yield all-zero value components. -/
theorem C10_zero_on_error_witness :
    ((RawLuminosity (.error Err.overflow) (.ok 3)).1 = 0 ∧
      (RawLuminosity (.error Err.overflow) (.ok 3)).2.1 = 0) ∧
    (Lux Integrationtime100MS GainLow (.ok 0x9000) (.ok 2)).1 = 0 :=
  ⟨C10_zero_on_error.1 (.error Err.overflow) (.ok 3) (by decide),
    C10_zero_on_error.2.2.2.2 Integrationtime100MS GainLow (.ok 0x9000) (.ok 2) (by decide)⟩

end TSL2591
